import Mathlib

/-!
Verification of the Math Routing Agent core: the mock vector embedding,
cosine-similarity ranking, threshold routing, content guard, web-search
fallback and the solve pipeline, shallowly embedded from the TypeScript
source (`server/services/vectorDB.ts`, `guardrails`, `webSearch`,
`mathAgent`, `storage`).  Machine floating-point numbers are modelled by
real numbers; JavaScript strings by Lean strings (all data in play is
ASCII/BMP).
-/

/-! ### String helpers (JavaScript primitives) -/

/-- Model of JavaScript `s.toLowerCase()` (character-wise lowering; all
data in this code base is ASCII, where the two agree). -/
def jsToLower (s : String) : String :=
  ⟨s.toList.map Char.toLower⟩

/-- Model of JavaScript `haystack.includes(pat)`: `pat` occurs as a
contiguous substring of `s`. -/
def strContains (s pat : String) : Bool :=
  (List.range (s.toList.length + 1)).any fun i => pat.toList.isPrefixOf (s.toList.drop i)

/-! ### Content Guard (`AIGuardRails.validateMathematicalContent`) -/

/-- Allowlist of mathematical vocabulary (field `mathKeywords`). -/
def mathKeywords : List String :=
  ["equation", "derivative", "integral", "function", "solve", "calculate", "find",
   "algebra", "calculus", "geometry", "trigonometry", "statistics", "probability",
   "matrix", "vector", "polynomial", "logarithm", "exponential", "limit",
   "theorem", "proof", "formula", "graph", "plot", "coordinate", "angle",
   "triangle", "circle", "square", "rectangle", "area", "volume", "perimeter"]

/-- Denylist of non-mathematical/sensitive terms (field `nonMathKeywords`). -/
def nonMathKeywords : List String :=
  ["politics", "religion", "personal", "medical", "legal", "financial advice",
   "inappropriate", "offensive", "violent", "sexual", "drugs", "weapons"]

/-- The character class of the regex
`/[+\-*\/=<>∫∑∏√∞π∂∇±×÷≤≥≠≈∈∅∪∩]/`. -/
def mathSymbolChars : List Char :=
  ['+', '-', '*', '/', '=', '<', '>', '∫', '∑', '∏', '√', '∞', 'π', '∂', '∇',
   '±', '×', '÷', '≤', '≥', '≠', '≈', '∈', '∅', '∪', '∩']

/-- JavaScript regex word character (`\w` = `[A-Za-z0-9_]`), used by the
`\b` boundaries in `/\b[a-z]\b/i`. -/
def isWordChar (c : Char) : Bool :=
  c.isAlphanum || c = '_'

/-- Scan for a match of `/\b[a-z]\b/i`: an ASCII letter whose neighbours
(if any) are not word characters.  The accumulator records whether the
previous character was a word character (`false` at start of input). -/
def singleLetterScan : Bool → List Char → Bool
  | _, [] => false
  | prevWord, c :: rest =>
    (c.isAlpha && !prevWord &&
      !(match rest with | [] => false | d :: _ => isWordChar d))
    || singleLetterScan (isWordChar c) rest

/-- Source expression `nonMathKeywords.some(k => lowercaseInput.includes(k))`. -/
def hasNonMathContent (input : String) : Bool :=
  nonMathKeywords.any fun k => strContains (jsToLower input) k

/-- Source expression `mathKeywords.some(k => lowercaseInput.includes(k))`. -/
def hasMathContent (input : String) : Bool :=
  mathKeywords.any fun k => strContains (jsToLower input) k

/-- Source expression `mathSymbols.test(input)` (tested on the raw, non-lowercased input). -/
def hasMathSymbols (input : String) : Bool :=
  input.toList.any fun c => mathSymbolChars.contains c

/-- Source expression `/\d/.test(input)`. -/
def hasNumbers (input : String) : Bool :=
  input.toList.any Char.isDigit

/-- Source expression `/\b[a-z]\b/i.test(input)`. -/
def hasVariables (input : String) : Bool :=
  singleLetterScan false input.toList

/-- Result record of `validateMathematicalContent`. -/
structure ValidationResult where
  isValid : Bool
  reason : Option String
deriving DecidableEq

/-- Rejection reason for denylist hits. -/
def nonEducationalReason : String :=
  "Content appears to be non-educational or inappropriate. Please enter a mathematical problem."

/-- Generic rejection reason for non-mathematical input. -/
def notMathematicalReason : String :=
  "This doesn't appear to be a mathematical problem. Please enter a question related to mathematics, such as equations, calculus, geometry, or algebra."

/-- Embedding of `AIGuardRails.validateMathematicalContent`. -/
def validateMathematicalContent (input : String) : ValidationResult :=
  if hasNonMathContent input then
    ⟨false, some nonEducationalReason⟩
  else if hasMathContent input || hasMathSymbols input
      || (hasNumbers input && hasVariables input) then
    ⟨true, none⟩
  else
    ⟨false, some notMathematicalReason⟩

/-! ### Embedding Generator (`MockVectorDB.generateMockEmbedding`) -/

/-- Wrap an integer to the signed 32-bit range, as JavaScript `| 0` /
`& -1` coercion (`hash & hash` in the source) does. -/
def toInt32 (n : Int) : Int :=
  (n + 2 ^ 31) % 2 ^ 32 - 2 ^ 31

/-- One step of `simpleHash`: `hash = ((hash << 5) - hash) + charCode`
followed by `hash = hash & hash`.  The shift itself is a 32-bit
operation, the subtraction and addition are exact in doubles at these
magnitudes, and the `&` wraps the result back to 32 bits. -/
def hashStep (h : Int) (c : Nat) : Int :=
  toInt32 (toInt32 (h * 32) - h + c)

/-- Embedding of `MockVectorDB.simpleHash`: polynomial 31-style hash over the UTF-16
code units (all data is BMP, where code units equal code points),
finished with `Math.abs`. -/
def simpleHash (word : List Char) : Nat :=
  (word.foldl (fun h c => hashStep h c.toNat) 0).natAbs

/-- JavaScript `split(' ')` on a character list: splits at every single
space, keeping empty fragments; the empty input yields one empty
fragment, never zero fragments. -/
def splitOnSpaceAux : List Char → List Char → List (List Char)
  | acc, [] => [acc.reverse]
  | acc, c :: rest =>
    if c = ' ' then acc.reverse :: splitOnSpaceAux [] rest
    else splitOnSpaceAux (c :: acc) rest

/-- JavaScript `s.split(' ')`. -/
def jsSplitOnSpace (s : String) : List (List Char) :=
  splitOnSpaceAux [] s.toList

/-- The fixed embedding length (`new Array(384)`). -/
def embeddingDim : Nat := 384

/-- Embedding of `MockVectorDB.generateMockEmbedding`: lower-case, split on spaces,
and for each word (with its index) add `sin(hash + i + index) * 0.1`
into every dimension `i` of an initially all-zero 384-vector. -/
noncomputable def generateMockEmbedding (text : String) : List ℝ :=
  let words := jsSplitOnSpace (jsToLower text)
  words.enum.foldl
    (fun embedding iw =>
      embedding.mapIdx fun i v =>
        v + Real.sin ((simpleHash iw.2 : ℝ) + (i : ℝ) + (iw.1 : ℝ)) * 0.1)
    (List.replicate embeddingDim 0)

/-! ### Similarity Scorer (`MockVectorDB.calculateSimilarity`) -/

/-- The `dotProduct` accumulator of `calculateSimilarity` (the source
loops over the indices of `embedding1`; every call site passes two
vectors of length 384). -/
def dotProduct (e1 e2 : List ℝ) : ℝ :=
  (List.zipWith (fun x y => x * y) e1 e2).sum

/-- The `norm1` / `norm2` accumulators of `calculateSimilarity`: the sum
of squares of the entries. -/
def sumOfSquares (e : List ℝ) : ℝ :=
  (e.map fun x => x * x).sum

/-- Embedding of `MockVectorDB.calculateSimilarity`: cosine similarity
`dotProduct / (sqrt(norm1) * sqrt(norm2))`, with no special case for a
zero denominator. -/
noncomputable def calculateSimilarity (embedding1 embedding2 : List ℝ) : ℝ :=
  dotProduct embedding1 embedding2 /
    (Real.sqrt (sumOfSquares embedding1) * Real.sqrt (sumOfSquares embedding2))

/-- The all-zero embedding. -/
def zeroEmbedding : List ℝ :=
  List.replicate embeddingDim 0

/-! ### Solution documents and the Knowledge Store (`MockVectorDB`) -/

/-- One step of a structured solution (`steps` entries of the sample
data and of `generateSolutionFromSearch`). -/
structure SolutionStep where
  step : Nat
  title : String
  content : String
  explanation : String
deriving DecidableEq

/-- An entry of a web-generated solution's `sources` list. -/
structure SourceRef where
  title : String
  url : String
deriving DecidableEq

/-- A structured solution document: step sequence, final answer and, for
web-generated solutions only, a `sources` list (knowledge-base sample
solutions carry no `sources` key, modelled as `none`). -/
structure Solution where
  steps : List SolutionStep
  finalAnswer : String
  sources : Option (List SourceRef)
deriving DecidableEq

/-- A record of the `MockVectorDB.problems` array. -/
structure StoredProblem where
  problem : String
  solution : Solution
  category : String
  embedding : List ℝ

/-- A `VectorSearchResult` as returned by `searchSimilarProblems`. -/
structure VectorSearchResult where
  problem : String
  solution : Solution
  similarity : ℝ
  category : String
  source : String

/-- The comparator `(a, b) => b.similarity - a.similarity` handed to the
(stable) `Array.prototype.sort`: `a` may stay before `b` iff
`b.similarity ≤ a.similarity` (descending order). -/
noncomputable def searchCmp (a b : VectorSearchResult) : Bool :=
  decide (b.similarity ≤ a.similarity)

/-- The `results` array built by `searchSimilarProblems` before sorting:
one scored result per stored entry, in store order. -/
noncomputable def scoreResults (problems : List StoredProblem)
    (queryEmbedding : List ℝ) : List VectorSearchResult :=
  problems.map fun p =>
    { problem := p.problem, solution := p.solution,
      similarity := calculateSimilarity queryEmbedding p.embedding,
      category := p.category, source := "knowledge_base" }

/-- Embedding of `MockVectorDB.searchSimilarProblems`: embed the query, score every
stored entry, sort descending by similarity (JavaScript's sort is
stable, modelled by the stable `List.mergeSort`), truncate to `limit`.
(The source defaults `limit` to 5; the agent always passes 3.) -/
noncomputable def searchSimilarProblems (problems : List StoredProblem)
    (query : String) (limit : Nat) : List VectorSearchResult :=
  ((scoreResults problems (generateMockEmbedding query)).mergeSort searchCmp).take limit

/-- State-passing view of the `searchSimilarProblems` method: the method
body reads `this.problems` and never assigns to it, so the store comes
back unchanged alongside the results. -/
noncomputable def searchSimilarProblemsM (problems : List StoredProblem)
    (query : String) (limit : Nat) : List VectorSearchResult × List StoredProblem :=
  (searchSimilarProblems problems query limit, problems)

/-- Embedding of `MockVectorDB.addProblem`: push one record whose stored text is the
lower-cased problem, with the embedding computed from the original text. -/
noncomputable def addProblem (problems : List StoredProblem) (problem : String)
    (solution : Solution) (category : String) : List StoredProblem :=
  problems ++ [{ problem := jsToLower problem, solution := solution,
                 category := category, embedding := generateMockEmbedding problem }]

/-! ### Web-search fallback (`MCPWebSearch`) -/

/-- A `WebSearchResult`. -/
structure WebSearchResult where
  title : String
  content : String
  url : String
  relevance : ℝ

/-- The static mock results of `searchMathematicalContent`. -/
noncomputable def mockSearchResults : List WebSearchResult :=
  [{ title := "Advanced Topology Optimization Techniques",
     content := "Topology optimization is a mathematical method that optimizes material layout within a given design space...",
     url := "https://example.com/topology-optimization",
     relevance := 0.95 },
   { title := "Quantum Mathematics in Cryptography Applications",
     content := "Quantum mathematics provides the foundation for quantum cryptography through principles of quantum mechanics...",
     url := "https://example.com/quantum-crypto",
     relevance := 0.88 }]

/-- Embedding of `MCPWebSearch.searchMathematicalContent`: ignores the query and
returns the two static mock results. -/
noncomputable def searchMathematicalContent (query : String) : List WebSearchResult :=
  mockSearchResults

/-- JavaScript `s.substring(0, n)` (character-list truncation; the data
is ASCII, where UTF-16 units and characters agree). -/
def jsTruncate (s : String) (n : Nat) : String :=
  ⟨s.toList.take n⟩

/-- Embedding of `MCPWebSearch.generateSolutionFromSearch`: a single "no solution
found" step on empty results, otherwise a two-step template whose first
step summarises the first result (content truncated to 200 characters
plus `"..."`) and whose sources list the title/url of every result. -/
def generateSolutionFromSearch (query : String)
    (searchResults : List WebSearchResult) : Solution :=
  match searchResults with
  | [] =>
    { steps := [{ step := 1, title := "Search completed",
                  content := "No specific mathematical problem solution found",
                  explanation := "This appears to be an advanced topic that requires specialized knowledge" }],
      finalAnswer := "Please provide more specific mathematical details for a step-by-step solution",
      sources := some [] }
  | first :: _ =>
    { steps := [{ step := 1, title := "Research Summary",
                  content := jsTruncate first.content 200 ++ "...",
                  explanation := "Based on current research and mathematical literature" },
                { step := 2, title := "Key Concepts",
                  content := "This topic involves advanced mathematical concepts that are actively researched",
                  explanation := "The solution requires understanding of specialized mathematical frameworks" }],
      finalAnswer := "This is an advanced mathematical topic. For detailed solutions, please consult specialized mathematical literature.",
      sources := some (searchResults.map fun r => { title := r.title, url := r.url }) }

/-! ### Storage collaborator (`MemStorage`, the parts the agent uses) -/

/-- A persisted math-problem record. -/
structure MathProblemRecord where
  id : Nat
  problem : String
  solution : Solution
  category : String
  difficulty : String
  source : String
deriving DecidableEq

/-- A persisted activity-log record. -/
structure ActivityRecord where
  action : String
  source : String
  details : String
deriving DecidableEq

/-- The storage collaborator's state: the persisted problem and activity
records, in creation order. -/
structure StorageState where
  problems : List MathProblemRecord
  activities : List ActivityRecord
deriving DecidableEq

/-- Embedding of `storage.createActivity`: append one activity record. -/
def createActivity (s : StorageState) (a : ActivityRecord) : StorageState :=
  { s with activities := s.activities ++ [a] }

/-- Embedding of `storage.createMathProblem`: append one problem record; the opaque
`randomUUID` identifier is modelled by the creation position. -/
def createMathProblem (s : StorageState) (problem : String) (solution : Solution)
    (category difficulty source : String) : MathProblemRecord × StorageState :=
  let record : MathProblemRecord :=
    { id := s.problems.length, problem := problem, solution := solution,
      category := category, difficulty := difficulty, source := source }
  (record, { s with problems := s.problems ++ [record] })

/-! ### Routing agent (`MathRoutingAgent.solveProblem`, the version wired
to the vector DB, guardrails and web search) -/

/-- The fixed routing threshold (`similarityThreshold = 0.7`). -/
noncomputable def similarityThreshold : ℝ := 0.7

/-- Outcome of the knowledge-base check in `solveProblem`
(`RoutingOutcome` of spec §4.4). -/
inductive RoutingOutcome where
  | knowledgeBaseHit (entry : VectorSearchResult)
  | fallbackNeeded

/-- The routing decision of `solveProblem`: search the top 3 similar
problems; a non-empty result list whose first similarity strictly
exceeds the threshold answers from the knowledge base, anything else
falls back to web search. -/
noncomputable def route (store : List StoredProblem) (query : String) : RoutingOutcome :=
  match searchSimilarProblems store query 3 with
  | [] => RoutingOutcome.fallbackNeeded
  | best :: _ =>
    if best.similarity > similarityThreshold then RoutingOutcome.knowledgeBaseHit best
    else RoutingOutcome.fallbackNeeded

/-- A `MathSolutionRequest`. -/
structure MathSolutionRequest where
  problem : String
  showSteps : Bool
  includeExplanations : Bool

/-- A `MathSolutionResponse`. -/
structure MathSolutionResponse where
  problem : String
  solution : Solution
  source : String
  responseTime : Nat
  category : Option String
  problemId : Nat
deriving DecidableEq

/-- Embedding of `MathRoutingAgent.solveProblem`: guardrails run first and a rejection
throws before anything is written; on acceptance the submission is
logged, the query routed, and both paths persist a problem record plus
an activity record before returning.  Wall-clock `responseTime` is
modelled as 0 and the numeric interpolations inside activity `details`
strings are omitted. -/
noncomputable def solveProblem (store : List StoredProblem) (s : StorageState)
    (req : MathSolutionRequest) : Except String MathSolutionResponse × StorageState :=
  let validation := validateMathematicalContent req.problem
  if validation.isValid then
    let s1 := createActivity s
      { action := "Problem submitted", source := "user_input",
        details := jsTruncate req.problem 100 }
    match route store req.problem with
    | RoutingOutcome.knowledgeBaseHit bestMatch =>
      let pr := createMathProblem s1 req.problem bestMatch.solution
        bestMatch.category "intermediate" "knowledge_base"
      let s2 := createActivity pr.2
        { action := "Solution found", source := "knowledge_base", details := "Similarity: " }
      (Except.ok { problem := req.problem, solution := bestMatch.solution,
                   source := "knowledge_base", responseTime := 0,
                   category := some bestMatch.category, problemId := pr.1.id }, s2)
    | RoutingOutcome.fallbackNeeded =>
      let searchResults := searchMathematicalContent req.problem
      let webSolution := generateSolutionFromSearch req.problem searchResults
      let pr := createMathProblem s1 req.problem webSolution "advanced" "advanced" "web_search"
      let s2 := createActivity pr.2
        { action := "Solution found", source := "web_search", details := "Sources: " }
      (Except.ok { problem := req.problem, solution := webSolution,
                   source := "web_search", responseTime := 0,
                   category := some "advanced", problemId := pr.1.id }, s2)
  else
    (Except.error (validation.reason.getD "Invalid mathematical content"), s)

/-- Claim C5: the Content Guard applies its rules in order — a
(case-insensitive) denylist hit rejects with the inappropriate /
non-educational reason; otherwise an allowlist keyword, a mathematical
symbol, or a digit together with a single-letter token accepts; otherwise
it rejects with the generic not-a-mathematical-problem reason.  In
particular `"solve x^2 + 5x + 6 = 0"` is accepted,
`"tell me about politics"` is rejected with the denylist reason, and
`"hello there"` is rejected with the generic reason. -/
theorem C5_content_guard_policy (input : String) :
    ((validateMathematicalContent input).isValid = true ↔
      (hasNonMathContent input = false ∧
        (hasMathContent input = true ∨ hasMathSymbols input = true ∨
          (hasNumbers input = true ∧ hasVariables input = true)))) ∧
    ((validateMathematicalContent input).reason = some nonEducationalReason ↔
      hasNonMathContent input = true) ∧
    ((validateMathematicalContent input).reason = some notMathematicalReason ↔
      (hasNonMathContent input = false ∧ hasMathContent input = false ∧
        hasMathSymbols input = false ∧
        (hasNumbers input = false ∨ hasVariables input = false))) ∧
    validateMathematicalContent "solve x^2 + 5x + 6 = 0" = ⟨true, none⟩ ∧
    validateMathematicalContent "tell me about politics" = ⟨false, some nonEducationalReason⟩ ∧
    validateMathematicalContent "hello there" = ⟨false, some notMathematicalReason⟩ := by
  refine ⟨?_, ?_, ?_, by decide, by decide, by decide⟩ <;>
    · unfold validateMathematicalContent
      rcases h1 : hasNonMathContent input with _ | _ <;>
        rcases h2 : hasMathContent input with _ | _ <;>
          rcases h3 : hasMathSymbols input with _ | _ <;>
            rcases h4 : hasNumbers input with _ | _ <;>
              rcases h5 : hasVariables input with _ | _ <;>
                simp_all [nonEducationalReason, notMathematicalReason]

theorem sumOfSquares_zeroEmbedding : sumOfSquares zeroEmbedding = 0 := by
  simp [sumOfSquares, zeroEmbedding, List.map_replicate, List.sum_replicate]

theorem dotProduct_zeroEmbedding : dotProduct zeroEmbedding zeroEmbedding = 0 := by
  simp [dotProduct, zeroEmbedding, List.zipWith_same, List.map_replicate, List.sum_replicate]

/-- Claim C4 (code bug): for the all-zero embedding the denominator
`sqrt(norm1) * sqrt(norm2)` of `calculateSimilarity` is 0 while the
numerator is also 0, and the code performs exactly this unguarded
division — in IEEE arithmetic `0 / 0` is `NaN`, so the claimed defined
similarity of 0 is not produced. -/
theorem C4_zero_norm_division_unguarded :
    Real.sqrt (sumOfSquares zeroEmbedding) * Real.sqrt (sumOfSquares zeroEmbedding) = 0 ∧
    dotProduct zeroEmbedding zeroEmbedding = 0 ∧
    calculateSimilarity zeroEmbedding zeroEmbedding =
      dotProduct zeroEmbedding zeroEmbedding /
        (Real.sqrt (sumOfSquares zeroEmbedding) * Real.sqrt (sumOfSquares zeroEmbedding)) := by
  refine ⟨?_, dotProduct_zeroEmbedding, rfl⟩
  rw [sumOfSquares_zeroEmbedding, Real.sqrt_zero, mul_zero]

theorem sumOfSquares_nonneg (a : List ℝ) : 0 ≤ sumOfSquares a := by
  refine List.sum_nonneg ?_
  intro x hx
  rcases List.mem_map.mp hx with ⟨y, -, rfl⟩
  exact mul_self_nonneg y

theorem sumOfSquares_pos (a : List ℝ) (h : ∃ x ∈ a, x ≠ 0) :
    0 < sumOfSquares a := by
  induction a with
  | nil => simp at h
  | cons y t ih =>
    have hsum : sumOfSquares (y :: t) = y * y + sumOfSquares t := by
      simp [sumOfSquares]
    rcases h with ⟨x, hx, hx0⟩
    rcases List.mem_cons.mp hx with rfl | hxt
    · have hpos : 0 < x * x := mul_self_pos.mpr hx0
      have ht := sumOfSquares_nonneg t
      rw [hsum]; linarith
    · have ht := ih ⟨x, hxt, hx0⟩
      have hy := mul_self_nonneg y
      rw [hsum]; linarith

theorem dotProduct_self (a : List ℝ) : dotProduct a a = sumOfSquares a := by
  simp [dotProduct, sumOfSquares, List.zipWith_same]

/-- Claim C9: for every non-zero embedding `a` the cosine similarity of
`a` with itself — `dot(a,a)` divided by the product of the two equal
norms — equals 1 exactly over the reals. -/
theorem C9_self_similarity_eq_one (a : List ℝ) (h : ∃ x ∈ a, x ≠ 0) :
    calculateSimilarity a a = 1 := by
  have hpos := sumOfSquares_pos a h
  rw [calculateSimilarity, dotProduct_self,
    Real.mul_self_sqrt (le_of_lt hpos), div_self (ne_of_gt hpos)]

/-- Witness for C9 at the concrete 384-length embedding `1 :: 0…0`. -/
theorem C9_self_similarity_eq_one_witness :
    (∃ x ∈ ((1:ℝ) :: List.replicate 383 0), x ≠ 0) ∧
    calculateSimilarity ((1:ℝ) :: List.replicate 383 0)
      ((1:ℝ) :: List.replicate 383 0) = 1 :=
  ⟨⟨1, List.mem_cons_self _ _, one_ne_zero⟩,
   C9_self_similarity_eq_one _ ⟨1, List.mem_cons_self _ _, one_ne_zero⟩⟩

set_option maxRecDepth 8000 in
theorem mockEmbedding_empty :
    generateMockEmbedding "" = (List.range embeddingDim).map fun i : Nat => Real.sin i * 0.1 := by
  simp only [generateMockEmbedding]
  rw [show jsSplitOnSpace (jsToLower "") = [([] : List Char)] from rfl]
  rw [show ([([] : List Char)] : List (List Char)).enum = [(0, ([] : List Char))] from rfl]
  rw [List.foldl_cons, List.foldl_nil]
  refine List.ext_getElem (by simp) ?_
  intro i h1 h2
  rw [List.getElem_mapIdx, List.getElem_replicate, List.getElem_map, List.getElem_range]
  rw [show simpleHash ([] : List Char) = 0 from rfl]
  simp

theorem rangeSin_ne_allZero :
    (List.range embeddingDim).map (fun i : Nat => Real.sin i * 0.1) ≠
      List.replicate embeddingDim (0:ℝ) := by
  intro hEq
  have h1 := congrArg (fun l : List ℝ => l[1]?) hEq
  simp only [List.getElem?_map, List.getElem?_range, List.getElem?_replicate] at h1
  norm_num [embeddingDim] at h1
  have h3 : 0 < Real.sin 1 := by
    refine Real.sin_pos_of_pos_of_lt_pi one_pos ?_
    calc (1:ℝ) < 3 := by norm_num
    _ < Real.pi := Real.pi_gt_three
  nlinarith [h1, h3]

/-- Counterexample to claim C8: on the empty input string the embedding
generator does not return the all-zero vector of length 384. -/
theorem C8_counterexample_empty_not_all_zero :
    generateMockEmbedding "" ≠ List.replicate embeddingDim (0:ℝ) := by
  rw [mockEmbedding_empty]
  exact rangeSin_ne_allZero

/-- Claim C8 (amended): `''.split(' ')` yields one empty token, not zero
tokens, so the embedding of the empty string is the length-384 vector
with `sin(i) * 0.1` in dimension `i` (the empty token hashes to 0) —
a well-formed but non-zero vector. -/
theorem C8_empty_input_embedding :
    generateMockEmbedding "" = (List.range embeddingDim).map (fun i : Nat => Real.sin i * 0.1) ∧
    (generateMockEmbedding "").length = embeddingDim ∧
    generateMockEmbedding "" ≠ List.replicate embeddingDim 0 := by
  refine ⟨mockEmbedding_empty, ?_, ?_⟩
  · rw [mockEmbedding_empty]; simp
  · rw [mockEmbedding_empty]; exact rangeSin_ne_allZero

/-- Claim C1: for every store and query the routing decision answers from
the knowledge base, with the top entry, exactly when the top-3 similarity
search returns a non-empty result sequence whose first score strictly
exceeds the 0.7 threshold; in every other case it takes the fallback
path, and those two outcomes are the only possible ones (routing never
fails). -/
theorem C1_routing_threshold_decision (store : List StoredProblem) (query : String) :
    (∀ e, route store query = RoutingOutcome.knowledgeBaseHit e ↔
      ((searchSimilarProblems store query 3).head? = some e ∧
        e.similarity > similarityThreshold)) ∧
    (route store query = RoutingOutcome.fallbackNeeded ↔
      ∀ e, (searchSimilarProblems store query 3).head? = some e →
        e.similarity ≤ similarityThreshold) ∧
    (route store query = RoutingOutcome.fallbackNeeded ∨
      ∃ e, route store query = RoutingOutcome.knowledgeBaseHit e) := by
  rcases h : searchSimilarProblems store query 3 with _ | ⟨best, rest⟩
  · have hroute : route store query = RoutingOutcome.fallbackNeeded := by
      simp [route, h]
    rw [hroute]
    refine ⟨fun e => ?_, ?_, Or.inl rfl⟩
    · simp
    · simp
  · by_cases hgt : best.similarity > similarityThreshold
    · have hroute : route store query = RoutingOutcome.knowledgeBaseHit best := by
        simp [route, h, hgt]
      rw [hroute]
      refine ⟨fun e => ?_, ?_, Or.inr ⟨best, rfl⟩⟩
      · constructor
        · intro he
          injection he with he'
          subst he'
          exact ⟨rfl, hgt⟩
        · rintro ⟨h1, -⟩
          cases Option.some.inj h1
          rfl
      · constructor
        · intro he
          exact absurd he (by simp)
        · intro hall
          exact absurd hgt (not_lt.mpr (hall best rfl))
    · have hroute : route store query = RoutingOutcome.fallbackNeeded := by
        simp [route, h, hgt]
      rw [hroute]
      refine ⟨fun e => ?_, ?_, Or.inl rfl⟩
      · constructor
        · intro he
          exact absurd he (by simp)
        · rintro ⟨h1, h2⟩
          cases Option.some.inj h1
          exact absurd h2 hgt
      · constructor
        · intro _ e h1
          cases Option.some.inj h1
          exact not_lt.mp hgt
        · intro _
          rfl

/-- Claim C2: on every successful solve the response's `source` tag and
solution reflect the path actually taken — `knowledge_base` with the
matched entry's stored solution exactly on the knowledge-base path, and
`web_search` with the web-generated solution exactly on the fallback
path (the tag is never a constant). -/
theorem C2_source_tag_reflects_path (store : List StoredProblem) (s : StorageState)
    (req : MathSolutionRequest) :
    ((solveProblem store s req).1.toOption.map fun r => (r.source, r.solution)) =
      (if (validateMathematicalContent req.problem).isValid then
        (match route store req.problem with
         | RoutingOutcome.knowledgeBaseHit best => some ("knowledge_base", best.solution)
         | RoutingOutcome.fallbackNeeded =>
             some ("web_search", generateSolutionFromSearch req.problem
               (searchMathematicalContent req.problem)))
       else none) := by
  by_cases hv : (validateMathematicalContent req.problem).isValid
  · rcases hr : route store req.problem with e | -
    · simp [solveProblem, hv, hr, Except.toOption]
    · simp [solveProblem, hv, hr, Except.toOption]
  · simp [solveProblem, hv, Except.toOption]

/-- Claim C6: a solve fails exactly when the Content Guard rejects the
input, and a rejection short-circuits before the submission log, before
routing and before any persistence: the storage state comes back exactly
as it went in (no problem record, no activity record). -/
theorem C6_rejection_before_any_write (store : List StoredProblem) (s : StorageState)
    (req : MathSolutionRequest) :
    ((∃ msg, (solveProblem store s req).1 = Except.error msg) ↔
      (validateMathematicalContent req.problem).isValid = false) ∧
    ((validateMathematicalContent req.problem).isValid = false →
      solveProblem store s req =
        (Except.error ((validateMathematicalContent req.problem).reason.getD
          "Invalid mathematical content"), s)) := by
  by_cases hv : (validateMathematicalContent req.problem).isValid
  · constructor
    · rcases hr : route store req.problem with e | -
      · simp [solveProblem, hv, hr]
      · simp [solveProblem, hv, hr]
    · intro hfalse
      rw [hv] at hfalse
      exact Bool.noConfusion hfalse
  · have hv' : (validateMathematicalContent req.problem).isValid = false := by
      simpa using hv
    constructor
    · simp [solveProblem, hv']
    · intro _
      simp [solveProblem, hv']

/-- Witness for C6 at the concrete rejected input
`"tell me about politics"` and the empty storage state. -/
theorem C6_rejection_before_any_write_witness :
    (validateMathematicalContent "tell me about politics").isValid = false ∧
    solveProblem [] ⟨[], []⟩
        { problem := "tell me about politics", showSteps := true, includeExplanations := true } =
      (Except.error nonEducationalReason, ⟨[], []⟩) := by
  have hv : (validateMathematicalContent "tell me about politics").isValid = false := by decide
  refine ⟨hv, ?_⟩
  have h2 := (C6_rejection_before_any_write [] ⟨[], []⟩
    { problem := "tell me about politics", showSteps := true, includeExplanations := true }).2 hv
  rw [h2]
  rw [show (validateMathematicalContent "tell me about politics").reason =
    some nonEducationalReason from by decide]
  rfl

/-- Counterexample to claim C7: for a search result whose content is
`"abc"`, the first step's content is `"abc..."` — the 200-character
truncation with an ellipsis appended — and not the plain truncation the
claim states. -/
theorem C7_counterexample_ellipsis_appended :
    ¬ ((generateSolutionFromSearch "q"
        [{ title := "t", content := "abc", url := "u", relevance := 1 }]).steps.head?.map
          (fun st => st.content) =
      some (jsTruncate "abc" 200)) := by
  decide

/-- Claim C7 (amended): the fallback responder returns a single "Search
completed / no solution found" step on empty results; otherwise two
steps whose first content is the first result's content truncated to 200
characters with `"..."` appended, with sources exactly the title and url
of every search result, in order. -/
theorem C7_fallback_document_shape (query : String)
    (searchResults : List WebSearchResult) :
    ((generateSolutionFromSearch query searchResults).steps.length =
      if searchResults.isEmpty then 1 else 2) ∧
    ((generateSolutionFromSearch query searchResults).steps.head?.map (fun st => st.title) =
      some (if searchResults.isEmpty then "Search completed" else "Research Summary")) ∧
    ((generateSolutionFromSearch query searchResults).steps.head?.map (fun st => st.content) =
      match searchResults with
      | [] => some "No specific mathematical problem solution found"
      | first :: _ => some (jsTruncate first.content 200 ++ "...")) ∧
    ((generateSolutionFromSearch query searchResults).sources =
      some (searchResults.map fun r => { title := r.title, url := r.url })) := by
  rcases searchResults with _ | ⟨first, rest⟩ <;>
    simp [generateSolutionFromSearch]

theorem searchCmp_trans : ∀ a b c : VectorSearchResult,
    searchCmp a b = true → searchCmp b c = true → searchCmp a c = true := by
  intro a b c hab hbc
  simp only [searchCmp, decide_eq_true_eq] at *
  exact le_trans hbc hab

theorem searchCmp_total : ∀ a b : VectorSearchResult,
    (searchCmp a b || searchCmp b a) = true := by
  intro a b
  simp only [searchCmp, Bool.or_eq_true, decide_eq_true_eq]
  exact le_total b.similarity a.similarity

/-- Claim C3: for every store, query and limit, the similarity search
returns at most `limit` results, sorted by non-increasing similarity
score; the sort is stable — the output is the `limit`-prefix of the
projection of some reordering of the indexed scored results that is
ordered by descending score with ties in strictly increasing original
position; and the store's entries come back unchanged. -/
theorem C3_search_sorted_bounded_stable (problems : List StoredProblem)
    (query : String) (limit : Nat) :
    (searchSimilarProblems problems query limit).length ≤ limit ∧
    (searchSimilarProblems problems query limit).Pairwise
      (fun a b => b.similarity ≤ a.similarity) ∧
    (∃ l', (scoreResults problems (generateMockEmbedding query)).enum.Perm l' ∧
      l'.Pairwise (fun a b => b.2.similarity ≤ a.2.similarity ∧
        (a.2.similarity ≤ b.2.similarity → a.1 < b.1)) ∧
      searchSimilarProblems problems query limit = (l'.map fun x => x.2).take limit) ∧
    (searchSimilarProblemsM problems query limit).2 = problems := by
  refine ⟨?_, ?_, ?_, rfl⟩
  · rw [searchSimilarProblems, List.length_take]
    exact min_le_left _ _
  · have hs := List.sorted_mergeSort searchCmp_trans searchCmp_total
      (scoreResults problems (generateMockEmbedding query))
    have hs' : ((scoreResults problems (generateMockEmbedding query)).mergeSort
        searchCmp).Pairwise (fun a b => b.similarity ≤ a.similarity) := by
      refine hs.imp ?_
      intro a b hab
      simpa [searchCmp] using hab
    exact hs'.sublist (List.take_sublist _ _)
  · refine ⟨(scoreResults problems (generateMockEmbedding query)).enum.mergeSort
      (List.enumLE searchCmp), ?_, ?_, ?_⟩
    · exact (List.mergeSort_perm _ _).symm
    · have hs := List.sorted_mergeSort (List.enumLE_trans searchCmp_trans)
        (List.enumLE_total searchCmp_total)
        (scoreResults problems (generateMockEmbedding query)).enum
      have hnd : ((scoreResults problems (generateMockEmbedding query)).enum.mergeSort
          (List.enumLE searchCmp)).Pairwise (fun a b => a.1 ≠ b.1) := by
        have h1 : ((scoreResults problems (generateMockEmbedding query)).enum.map
            Prod.fst).Nodup := by
          rw [List.enum_map_fst]
          exact List.nodup_range _
        have h2 := ((List.mergeSort_perm
          (scoreResults problems (generateMockEmbedding query)).enum
          (List.enumLE searchCmp)).map Prod.fst).symm.nodup h1
        exact List.pairwise_map.mp h2
      refine (hs.and hnd).imp ?_
      rintro a b ⟨hab, hne⟩
      by_cases h1 : searchCmp a.2 b.2 = true
      · by_cases h2 : searchCmp b.2 a.2 = true
        · simp only [List.enumLE, h1, h2, if_true, decide_eq_true_eq] at hab
          have hle : b.2.similarity ≤ a.2.similarity := by
            simpa [searchCmp] using h1
          exact ⟨hle, fun _ => lt_of_le_of_ne hab hne⟩
        · have hle : b.2.similarity ≤ a.2.similarity := by
            simpa [searchCmp] using h1
          have hnle : ¬ a.2.similarity ≤ b.2.similarity := by
            simpa [searchCmp] using h2
          exact ⟨hle, fun hc => absurd hc hnle⟩
      · exfalso
        have h1' : searchCmp a.2 b.2 = false := by simpa using h1
        simp [List.enumLE, h1'] at hab
    · rw [searchSimilarProblems, List.mergeSort_enum]

theorem charToNat_ofNat_of_lt (n : Nat) (h : n < 55296) :
    (Char.ofNat n).toNat = n := by
  have hv : n.isValidChar := Or.inl h
  rw [Char.ofNat, dif_pos hv]
  rfl

theorem charToLower_idem (c : Char) : (c.toLower).toLower = c.toLower := by
  simp only [Char.toLower]
  by_cases h : c.toNat ≥ 65 ∧ c.toNat ≤ 90
  · rw [if_pos h]
    have ht : (Char.ofNat (c.toNat + 32)).toNat = c.toNat + 32 :=
      charToNat_ofNat_of_lt _ (by omega)
    have hnot : ¬((Char.ofNat (c.toNat + 32)).toNat ≥ 65 ∧
        (Char.ofNat (c.toNat + 32)).toNat ≤ 90) := by
      rw [ht]; omega
    rw [if_neg hnot]
  · rw [if_neg h, if_neg h]

theorem jsToLower_idem (s : String) : jsToLower (jsToLower s) = jsToLower s := by
  unfold jsToLower
  rw [show (⟨s.toList.map Char.toLower⟩ : String).toList = s.toList.map Char.toLower from rfl]
  rw [List.map_map]
  have hcomp : Char.toLower ∘ Char.toLower = Char.toLower := by
    funext c
    exact charToLower_idem c
  rw [hcomp]

theorem generateMockEmbedding_jsToLower (p : String) :
    generateMockEmbedding (jsToLower p) = generateMockEmbedding p := by
  unfold generateMockEmbedding
  rw [jsToLower_idem]

/-- Claim C10: `addProblem` appends exactly one entry whose stored text
is the lower-cased problem while the embedding is computed from the
original text; since the embedding generator lower-cases internally the
stored embedding equals the embedding of the stored lower-cased text;
and every search over the extended store only ever returns stored texts
— for the new entry the lower-cased text, never the caller's original
text. -/
theorem C10_addProblem_stores_lowercased (store : List StoredProblem) (p : String)
    (sol : Solution) (cat : String) :
    addProblem store p sol cat =
      store ++ [{ problem := jsToLower p, solution := sol, category := cat,
                  embedding := generateMockEmbedding p }] ∧
    generateMockEmbedding p = generateMockEmbedding (jsToLower p) ∧
    (∀ query limit r, r ∈ searchSimilarProblems (addProblem store p sol cat) query limit →
      r.problem ∈ store.map (fun q => q.problem) ++ [jsToLower p]) := by
  refine ⟨rfl, (generateMockEmbedding_jsToLower p).symm, ?_⟩
  intro query limit r hr
  rw [searchSimilarProblems] at hr
  have hr1 := List.mem_of_mem_take hr
  rw [List.mem_mergeSort] at hr1
  rw [scoreResults] at hr1
  rcases List.mem_map.mp hr1 with ⟨q, hq, rfl⟩
  rw [addProblem] at hq
  rcases List.mem_append.mp hq with hq1 | hq1
  · exact List.mem_append.mpr (Or.inl (List.mem_map_of_mem _ hq1))
  · rcases List.mem_singleton.mp hq1 with rfl
    exact List.mem_append.mpr (Or.inr (List.mem_singleton.mpr rfl))
